import Mathlib

/-!
Verification of the IELTS evaluation workflow engine
(src/backend/app: graph_builder.py, graph_nodes.py, graph_state.py, llm_config.py).

Shallow embedding notes:
* Python strings are Lean String (both sequences of unicode code points;
  Python len / slicing correspond to String.length / List.take on toList).
* The GraphState TypedDict is a structure; the "error" entry is an
  Option String because the key may be absent from the state dict
  (handle_error_node reads it with state.get with a default).
* LangGraph node return values are partial-update records (StateUpdate)
  merged into the state by the executor (applyUpdate), mirroring
  LastValue channel semantics.
* The text-generation collaborator (chain.invoke) is an oracle
  parameter mapping the attempt index to an outcome: an exception
  (transport / parse failure, carrying str(e)) or a parsed value.
* Retry loops (for attempt in range(MAX_RETRIES)) are modelled by
  structural recursion on the number of remaining iterations, with the
  attempt index threaded alongside; the entry point starts at
  (remaining, attempt) = (MAX_RETRIES, 0), which runs the body exactly
  for attempt = 0 .. MAX_RETRIES - 1 as range does.  time.sleep calls
  are recorded in an output trace (list of slept durations in seconds),
  and collaborator calls are counted.
* Node bodies sit inside a try/except that converts any exception into
  a state update; the model makes every node a total function whose
  error branches carry the formatted exception text.
-/

/-- Python truthiness of the optional "error" entry of the state dict:
None and the empty string are falsy. -/
def pyTruthy (e : Option String) : Bool :=
  match e with
  | none => false
  | some s => s != ""

/-- Python str.lower (per-character lowercasing, as used on task_type). -/
def pyLower (s : String) : String := String.mk (s.toList.map Char.toLower)

/-- Python substring test: pat in hay. -/
def strContains (hay pat : String) : Bool :=
  hay.toList.tails.any (fun t => pat.toList.isPrefixOf t)

/-- The whitespace characters recognised by Python str.split() (ASCII part). -/
def isPySpace (c : Char) : Bool :=
  c = ' ' || c = '\t' || c = '\n' || c = '\r' || c = '\x0b' || c = '\x0c'

/-- Python str.split() (no separator): split on runs of whitespace,
dropping empty pieces.  The accumulator holds the current word reversed. -/
def splitAux : List Char → List Char → List (List Char)
  | [], acc => if acc = [] then [] else [acc.reverse]
  | c :: cs, acc =>
    if isPySpace c then
      if acc = [] then splitAux cs [] else acc.reverse :: splitAux cs []
    else splitAux cs (c :: acc)

/-- Python " ".join(words). -/
def joinWords : List (List Char) → List Char
  | [] => []
  | [w] => w
  | w :: ws => w ++ ' ' :: joinWords ws

/-- " ".join(text.split()), the whitespace-collapsing step of sanitize_text. -/
def collapseChars (s : List Char) : List Char := joinWords (splitAux s [])

/-- graph_nodes.py lines 80-101: sanitize_text.  Collapses whitespace,
then truncates to 15000 characters with a marker when too long. -/
def sanitize_text (text : String) : String :=
  if text = "" then ""
  else
    let t := String.mk (collapseChars text.toList)
    if t.length > 15000 then String.mk (t.toList.take 15000) ++ "... [truncated]"
    else t

/-- Scalar JSON values (the parsed generator output is inspected only at
its top level, so nested values are abstracted to scalars). -/
inductive PyVal where
  | str (s : String)
  | int (n : Int)
  | null
deriving DecidableEq

/-- A parsed generator response: either a JSON object (Python dict,
ordered key/value pairs) or some non-dict value. -/
inductive PyObj where
  | dict (entries : List (String × PyVal))
  | scalar (v : PyVal)
deriving DecidableEq

/-- graph_nodes.py lines 103-117: validate_json_output.  True iff the
result is a dict and every expected key occurs in it. -/
def validate_json_output (result : PyObj) (expected_keys : List String) : Bool :=
  match result with
  | PyObj.dict entries => expected_keys.all (fun k => entries.any (fun p => p.1 == k))
  | PyObj.scalar _ => false

/-- main.py lines 229-238: the shape of one entry of previous_attempts. -/
structure PriorAttempt where
  attempt_number : Nat
  word_count : Nat
  timestamp : String
  essay_text : String
  evaluation_summary : String
deriving DecidableEq

/-- graph_state.py lines 3-24: GraphState.  evaluations is the
criterion-name-keyed dict; error is optional (key may be absent). -/
structure GraphState where
  task_type : String
  prompt_text : String
  essay_text : String
  word_count : Nat
  previous_attempts : List PriorAttempt
  evaluations : List (String × PyObj)
  final_report : String
  error : Option String
deriving DecidableEq

/-- A node's returned dict: a partial update of the state, merged by the
executor.  Fields absent from the returned dict are none. -/
structure StateUpdate where
  evaluations : Option (List (String × PyObj)) := none
  final_report : Option String := none
  error : Option String := none
deriving DecidableEq

/-- LangGraph merge of a node's returned dict into the state
(LastValue channels: a returned key replaces the stored value). -/
def applyUpdate (st : GraphState) (u : StateUpdate) : GraphState :=
  { st with
    evaluations := match u.evaluations with
      | some e => e
      | none => st.evaluations
    final_report := match u.final_report with
      | some r => r
      | none => st.final_report
    error := match u.error with
      | some e => some e
      | none => st.error }

/-- Python dict assignment d[k] = v: replace in place if the key exists,
else append (graph_nodes.py line 296). -/
def dictInsert (d : List (String × PyObj)) (k : String) (v : PyObj) :
    List (String × PyObj) :=
  if d.any (fun p => p.1 == k) then
    d.map (fun p => if p.1 == k then (k, v) else p)
  else d ++ [(k, v)]

/-- llm_config.py line 30: MAX_RETRIES = int(os.getenv("MODEL_MAX_RETRIES", "3"));
the default value 3 is used throughout. -/
def MAX_RETRIES : Nat := 3

/-- One generation-collaborator call in a stage node
(chain = prompt | llm | json_parser; chain.invoke): either an exception
(collaborator call failure or output parse failure, carrying str(e)) or
a parsed result. -/
inductive CallOutcome where
  | raise (msg : String)
  | ok (result : PyObj)
deriving DecidableEq

/-- How the retry loop of an evaluator node is exited. -/
inductive LoopExit where
  | success (result : PyObj)
  | failure (msg : String)
  | fellThrough
deriving DecidableEq

/-- graph_nodes.py lines 266-315: the retry loop of an evaluator node,
for attempt in range(MAX_RETRIES).  Structurally recursive on the number
of remaining iterations (entered with remaining = maxRetries, i = 0);
i is the current value of attempt.  Returns the exit, the number of
collaborator calls made, and the list of time.sleep durations (seconds). -/
def evalLoop (expected_keys : List String) (oracle : Nat → CallOutcome)
    (maxRetries : Nat) : Nat → Nat → LoopExit × Nat × List Nat
  | 0, _ => (LoopExit.fellThrough, 0, [])
  | remaining + 1, i =>
    match oracle i with
    | CallOutcome.ok result =>
      if validate_json_output result expected_keys then
        (LoopExit.success result, 1, [])
      else if i = maxRetries - 1 then
        (LoopExit.failure "LLM returned invalid output format", 1, [])
      else
        let rest := evalLoop expected_keys oracle maxRetries remaining (i + 1)
        (rest.1, rest.2.1 + 1, 2 ^ i :: rest.2.2)
    | CallOutcome.raise msg =>
      if i = maxRetries - 1 then
        (LoopExit.failure msg, 1, [])
      else
        let rest := evalLoop expected_keys oracle maxRetries remaining (i + 1)
        (rest.1, rest.2.1 + 1, 2 ^ i :: rest.2.2)

/-- graph_nodes.py lines 170-321: the evaluator_node closure produced by
create_evaluator_node(criterion_name, rubric_filename); expected_output_keys
are the rubric's output_format keys.  The outer try/except folds any
exception (including the empty-essay ValueError and a re-raised
last-attempt failure) into an "error" update.  Returns the update, the
collaborator call count, and the sleep trace. -/
def evaluator_node (criterion_name : String) (expected_output_keys : List String)
    (oracle : Nat → CallOutcome) (maxRetries : Nat) (state : GraphState) :
    StateUpdate × Nat × List Nat :=
  if state.essay_text = "" then
    ({ error := some ("Failed during " ++ criterion_name ++
        " evaluation: No essay text provided") }, 0, [])
  else
    match evalLoop expected_output_keys oracle maxRetries maxRetries 0 with
    | (LoopExit.success result, c, ss) =>
      ({ evaluations := some (dictInsert state.evaluations criterion_name result) },
        c, ss)
    | (LoopExit.failure msg, c, ss) =>
      ({ error := some ("Failed during " ++ criterion_name ++
          " evaluation: " ++ msg) }, c, ss)
    | (LoopExit.fellThrough, c, ss) => ({}, c, ss)

/-- One generation-collaborator call in the synthesizer
(chain = prompt | llm; result.content is free text). -/
inductive SynthOutcome where
  | raise (msg : String)
  | ok (content : String)
deriving DecidableEq

/-- How the synthesizer's retry loop is exited. -/
inductive SynthExit where
  | success (content : String)
  | failure (msg : String)
  | fellThrough
deriving DecidableEq

/-- graph_nodes.py lines 475-498: the synthesizer's retry loop, same
shape as the evaluator's. -/
def synthLoop (oracle : Nat → SynthOutcome) (maxRetries : Nat) :
    Nat → Nat → SynthExit × Nat × List Nat
  | 0, _ => (SynthExit.fellThrough, 0, [])
  | remaining + 1, i =>
    match oracle i with
    | SynthOutcome.ok content => (SynthExit.success content, 1, [])
    | SynthOutcome.raise msg =>
      if i = maxRetries - 1 then
        (SynthExit.failure msg, 1, [])
      else
        let rest := synthLoop oracle maxRetries remaining (i + 1)
        (rest.1, rest.2.1 + 1, 2 ^ i :: rest.2.2)

/-- graph_nodes.py line 357: the report returned when an earlier error is
detected on entry to the synthesizer. -/
def generic_error_report : String :=
  "**Evaluation Error**\n\nAn error occurred during the evaluation process. Please try again."

/-- graph_nodes.py lines 505-516: the static fallback report emitted when
synthesis fails. -/
def fallback_report : String :=
  "\n**Evaluation Report**\n\nAn error occurred while generating your detailed feedback report. However, your essay has been processed.\n\n**What you can do:**\n- Check that your essay meets the minimum word requirements\n- Ensure your essay directly addresses the prompt\n- Review basic IELTS writing criteria: Task Achievement/Response, Coherence & Cohesion, Lexical Resource, and Grammatical Range & Accuracy\n\nPlease try submitting your essay again.\n"

/-- graph_nodes.py lines 339-521: synthesizer_node.  An already-set error
short-circuits; empty evaluations raise ValueError("No evaluation results
found") which the outer except folds into the fallback report; otherwise
the generation loop runs and exhaustion is folded into the fallback
report with a "Synthesis error: " message.  (The missing-expected-
evaluation check at lines 366-377 only logs and is omitted; prompt
construction does not affect the returned update.) -/
def synthesizer_node (sOracle : Nat → SynthOutcome) (maxRetries : Nat)
    (state : GraphState) : StateUpdate × Nat × List Nat :=
  if pyTruthy state.error then
    ({ final_report := some generic_error_report, error := state.error }, 0, [])
  else if state.evaluations = [] then
    ({ final_report := some fallback_report,
       error := some "Synthesis error: No evaluation results found" }, 0, [])
  else
    match synthLoop sOracle maxRetries maxRetries 0 with
    | (SynthExit.success content, c, ss) => ({ final_report := some content }, c, ss)
    | (SynthExit.failure msg, c, ss) =>
      ({ final_report := some fallback_report,
         error := some ("Synthesis error: " ++ msg) }, c, ss)
    | (SynthExit.fellThrough, c, ss) => ({}, c, ss)

/-- graph_builder.py lines 8-25: should_evaluate_task_1_or_2, the
conditional-entry router. -/
def should_evaluate_task_1_or_2 (state : GraphState) : String :=
  let task_type := pyLower state.task_type
  if strContains task_type "task 1" then "evaluate_task_achievement_t1"
  else if strContains task_type "task 2" then "evaluate_task_response_t2"
  else "handle_error"

/-- graph_builder.py lines 27-41: handle_error_node, the error terminal. -/
def handle_error_node (state : GraphState) : StateUpdate :=
  let error_message := state.error.getD "An unknown error occurred during evaluation."
  { error := some error_message,
    final_report := some ("**Evaluation Error**\n\n" ++ error_message ++
      "\n\nPlease check your inputs and try again.") }

/-- Run one evaluator node and merge its update (trace discarded). -/
def runStage (criterion : String) (keysOf : String → List String)
    (oracle : String → Nat → CallOutcome) (maxRetries : Nat)
    (st : GraphState) : GraphState :=
  applyUpdate st (evaluator_node criterion (keysOf criterion) (oracle criterion)
    maxRetries st).1

/-- The initial PipelineState of one invocation of run (spec section 6:
run(category, promptContext, documentText, wordCount, history)); the
evaluations dict starts empty and the error entry absent. -/
def mkInitialState (category promptContext documentText : String)
    (wordCount : Nat) (history : List PriorAttempt) : GraphState :=
  { task_type := category
    prompt_text := promptContext
    essay_text := documentText
    word_count := wordCount
    previous_attempts := history
    evaluations := []
    final_report := ""
    error := none }

/-- graph_builder.py lines 43-96 (create_graph topology) driven to a
terminal node: router entry, then either the error terminal, or the
fixed sequential stage chain (task stage, coherence_cohesion,
lexical_resource, grammatical_range) followed by the synthesizer.
keysOf gives each criterion's rubric output_format keys; oracle gives
each stage's generation outcomes; sOracle the synthesizer's. -/
def run (keysOf : String → List String) (oracle : String → Nat → CallOutcome)
    (sOracle : Nat → SynthOutcome) (maxRetries : Nat)
    (category promptContext documentText : String) (wordCount : Nat)
    (history : List PriorAttempt) : GraphState :=
  let st0 := mkInitialState category promptContext documentText wordCount history
  let route := should_evaluate_task_1_or_2 st0
  if route = "handle_error" then
    applyUpdate st0 (handle_error_node st0)
  else
    let crit1 := if route = "evaluate_task_achievement_t1" then "task_achievement"
      else "task_response"
    let st1 := runStage crit1 keysOf oracle maxRetries st0
    let st2 := runStage "coherence_cohesion" keysOf oracle maxRetries st1
    let st3 := runStage "lexical_resource" keysOf oracle maxRetries st2
    let st4 := runStage "grammatical_range" keysOf oracle maxRetries st3
    applyUpdate st4 (synthesizer_node sOracle maxRetries st4).1

/-- Modelled from the spec: the half-band rounding rule the synthesizer
instructs the generation collaborator to apply (graph_nodes.py line 419);
the arithmetic itself is performed by the external collaborator, not by
code under src/.  Spec section 4.4: fractional remainder below 1/4
rounds down to the integer, at least 1/4 and below 3/4 rounds to the
half, at least 3/4 rounds up to the next integer. -/
def roundHalfUp (m : ℚ) : ℚ :=
  let n : ℤ := ⌊m⌋
  let r : ℚ := m - n
  if r < 1/4 then (n : ℚ)
  else if r < 3/4 then (n : ℚ) + 1/2
  else (n : ℚ) + 1


/-- An attempt of the evaluator retry loop that does not succeed: the
collaborator call raised, or the parsed output fails validation. -/
def attemptFails (keys : List String) : CallOutcome → Prop
  | CallOutcome.raise _ => True
  | CallOutcome.ok r => validate_json_output r keys = false

/-- The exception text that a failing final attempt propagates out of the
retry loop: str(e) for a raised exception, or the text of the ValueError
raised on an invalid output format. -/
def failMsgOf : CallOutcome → String
  | CallOutcome.raise m => m
  | CallOutcome.ok _ => "LLM returned invalid output format"

/-- Every whitespace character in the list is a plain space. -/
def allSpaceWS (s : List Char) : Bool :=
  s.all (fun c => !isPySpace c || c = ' ')

/-- No two adjacent characters are both whitespace. -/
def noConsecWS : List Char → Bool
  | a :: b :: rest => (!(isPySpace a && isPySpace b)) && noConsecWS (b :: rest)
  | _ => true

/-- The first character, if any, is not whitespace. -/
def headNotWS : List Char → Bool
  | [] => true
  | c :: _ => !isPySpace c

/-- The last character, if any, is not whitespace. -/
def lastNotWS (s : List Char) : Bool :=
  match s.getLast? with
  | none => true
  | some c => !isPySpace c

/-- Unfolding equation for one iteration of the evaluator retry loop. -/
theorem evalLoop_succ (keys : List String) (oracle : Nat → CallOutcome)
    (maxRetries remaining i : Nat) :
    evalLoop keys oracle maxRetries (remaining + 1) i =
      match oracle i with
      | CallOutcome.ok result =>
        if validate_json_output result keys then
          (LoopExit.success result, 1, [])
        else if i = maxRetries - 1 then
          (LoopExit.failure "LLM returned invalid output format", 1, [])
        else
          let rest := evalLoop keys oracle maxRetries remaining (i + 1)
          (rest.1, rest.2.1 + 1, 2 ^ i :: rest.2.2)
      | CallOutcome.raise msg =>
        if i = maxRetries - 1 then
          (LoopExit.failure msg, 1, [])
        else
          let rest := evalLoop keys oracle maxRetries remaining (i + 1)
          (rest.1, rest.2.1 + 1, 2 ^ i :: rest.2.2) := rfl


theorem evalLoop_allFail (keys : List String) (oracle : Nat → CallOutcome)
    (H : ∀ j, attemptFails keys (oracle j)) :
    ∀ (d i maxR : Nat), maxR = i + d + 1 →
      evalLoop keys oracle maxR (d + 1) i =
        (LoopExit.failure (failMsgOf (oracle (i + d))), d + 1,
         (List.range' i d).map (fun j => 2 ^ j)) := by
  intro d
  induction d with
  | zero =>
    intro i maxR hm
    subst hm
    rw [evalLoop_succ]
    cases h : oracle i with
    | ok r =>
      have hv : validate_json_output r keys = false := by
        have hh := H i; rw [h] at hh; exact hh
      simp [hv, failMsgOf, h]
    | raise m =>
      simp [failMsgOf, h]
  | succ d IH =>
    intro i maxR hm
    subst hm
    have hlast : ¬ (i = i + (d + 1) + 1 - 1) := by omega
    have hrec := IH (i + 1) (i + (d + 1) + 1) (by omega)
    rw [show i + 1 + d = i + (d + 1) by omega] at hrec
    rw [evalLoop_succ]
    cases h : oracle i with
    | ok r =>
      have hv : validate_json_output r keys = false := by
        have hh := H i; rw [h] at hh; exact hh
      simp only [hv, Bool.false_eq_true, if_false, hlast]
      rw [hrec]
      simp [List.range'_succ]
    | raise m =>
      simp only [hlast, if_false]
      rw [hrec]
      simp [List.range'_succ]

/-- A stage whose every generation attempt fails exhausts its retries:
maxR collaborator calls, backoff sleeps of 1, 2, 4, ... seconds, and an
error update carrying the stage name and the last exception text. -/
theorem evaluator_node_exhaust (crit : String) (keys : List String)
    (oracle : Nat → CallOutcome) (maxR : Nat) (st : GraphState)
    (h1 : 1 ≤ maxR) (h2 : st.essay_text ≠ "")
    (H : ∀ j, attemptFails keys (oracle j)) :
    evaluator_node crit keys oracle maxR st =
      ({ error := some ("Failed during " ++ crit ++ " evaluation: " ++
          failMsgOf (oracle (maxR - 1))) }, maxR,
       (List.range (maxR - 1)).map (fun j => 2 ^ j)) := by
  obtain ⟨d, rfl⟩ : ∃ d, maxR = d + 1 := ⟨maxR - 1, by omega⟩
  have hl := evalLoop_allFail keys oracle H d 0 (d + 1) (by omega)
  simp only [Nat.zero_add] at hl
  simp [evaluator_node, h2, hl, List.range_eq_range']

/-- Unfolding equation for one iteration of the synthesizer retry loop. -/
theorem synthLoop_succ (sOracle : Nat → SynthOutcome) (maxRetries remaining i : Nat) :
    synthLoop sOracle maxRetries (remaining + 1) i =
      match sOracle i with
      | SynthOutcome.ok content => (SynthExit.success content, 1, [])
      | SynthOutcome.raise msg =>
        if i = maxRetries - 1 then
          (SynthExit.failure msg, 1, [])
        else
          let rest := synthLoop sOracle maxRetries remaining (i + 1)
          (rest.1, rest.2.1 + 1, 2 ^ i :: rest.2.2) := rfl

theorem synthLoop_exit_spec (sOracle : Nat → SynthOutcome) :
    ∀ (d i maxR : Nat), maxR = i + d + 1 →
      (synthLoop sOracle maxR (d + 1) i).1 ≠ SynthExit.fellThrough ∧
      (∀ c, (synthLoop sOracle maxR (d + 1) i).1 = SynthExit.success c →
        ∃ j, sOracle j = SynthOutcome.ok c) := by
  intro d
  induction d with
  | zero =>
    intro i maxR hm
    subst hm
    rw [synthLoop_succ]
    cases h : sOracle i with
    | ok c =>
      refine ⟨by simp, ?_⟩
      intro c' hc'
      simp at hc'
      exact ⟨i, by rw [h, hc']⟩
    | raise m =>
      have hlast : i = i + 0 + 1 - 1 := by omega
      refine ⟨by simp [← hlast], ?_⟩
      intro c' hc'
      simp [← hlast] at hc'
  | succ d IH =>
    intro i maxR hm
    subst hm
    have hlast : ¬ (i = i + (d + 1) + 1 - 1) := by omega
    have hrec := IH (i + 1) (i + (d + 1) + 1) (by omega)
    rw [synthLoop_succ]
    cases h : sOracle i with
    | ok c =>
      refine ⟨by simp, ?_⟩
      intro c' hc'
      simp at hc'
      exact ⟨i, by rw [h, hc']⟩
    | raise m =>
      refine ⟨?_, ?_⟩
      · simp only [hlast, if_false]
        exact hrec.1
      · intro c' hc'
        simp only [hlast, if_false] at hc'
        exact hrec.2 c' hc'

/-- For a positive retry budget the synthesizer always returns an update
whose final_report is set; under a collaborator whose successful outputs
are non-empty, that report is non-empty. -/
theorem synthesizer_report_nonempty (sOracle : Nat → SynthOutcome)
    (maxR : Nat) (st : GraphState) (h1 : 1 ≤ maxR)
    (h2 : ∀ i c, sOracle i = SynthOutcome.ok c → c ≠ "") :
    ∃ r, (synthesizer_node sOracle maxR st).1.final_report = some r ∧ r ≠ "" := by
  by_cases he : pyTruthy st.error
  · exact ⟨generic_error_report, by simp [synthesizer_node, he], by decide⟩
  · by_cases hev : st.evaluations = []
    · exact ⟨fallback_report, by simp [synthesizer_node, he, hev], by decide⟩
    · obtain ⟨d, rfl⟩ : ∃ d, maxR = d + 1 := ⟨maxR - 1, by omega⟩
      have hspec := synthLoop_exit_spec sOracle d 0 (d + 1) (by omega)
      rcases hsl : synthLoop sOracle (d + 1) (d + 1) 0 with ⟨ex, c, ss⟩
      rw [hsl] at hspec
      cases ex with
      | success content =>
        refine ⟨content, by simp [synthesizer_node, he, hev, hsl], ?_⟩
        obtain ⟨j, hj⟩ := hspec.2 content rfl
        exact h2 j content hj
      | failure m =>
        exact ⟨fallback_report, by simp [synthesizer_node, he, hev, hsl], by decide⟩
      | fellThrough => exact absurd rfl hspec.1


/-- Unfolding equation for splitAux on a nonempty list. -/
theorem splitAux_cons (c : Char) (cs acc : List Char) :
    splitAux (c :: cs) acc =
      if isPySpace c then
        if acc = [] then splitAux cs [] else acc.reverse :: splitAux cs []
      else splitAux cs (c :: acc) := rfl

theorem splitAux_ne_nil : ∀ (s acc : List Char), acc ≠ [] → splitAux s acc ≠ [] := by
  intro s
  induction s with
  | nil =>
    intro acc ha
    simp [splitAux, ha]
  | cons c cs IH =>
    intro acc ha
    by_cases hc : isPySpace c
    · simp [splitAux, hc, ha]
    · simp only [splitAux, hc, Bool.false_eq_true, if_false]
      exact IH (c :: acc) (by simp)

theorem noConsecWS_tail {c : Char} {l : List Char}
    (h : noConsecWS (c :: l) = true) : noConsecWS l = true := by
  cases l with
  | nil => rfl
  | cons b rest =>
    have := h
    simp only [noConsecWS, Bool.and_eq_true] at this
    exact this.2

theorem lastNotWS_tail {c : Char} {l : List Char} (hl : l ≠ [])
    (h : lastNotWS (c :: l) = true) : lastNotWS l = true := by
  cases l with
  | nil => rfl
  | cons b rest =>
    unfold lastNotWS at h ⊢
    rwa [List.getLast?_cons_cons] at h

theorem joinWords_splitAux :
    ∀ (s : List Char), allSpaceWS s = true → noConsecWS s = true →
      lastNotWS s = true →
      ∀ acc : List Char, (acc = [] → headNotWS s = true) →
        joinWords (splitAux s acc) = acc.reverse ++ s := by
  intro s
  induction s with
  | nil =>
    intro _ _ _ acc _
    by_cases ha : acc = []
    · simp [splitAux, ha, joinWords]
    · simp [splitAux, ha, joinWords]
  | cons c cs IH =>
    intro h1 h2 h3 acc h4
    have h1cs : allSpaceWS cs = true := by
      simp only [allSpaceWS, List.all_cons, Bool.and_eq_true] at h1
      exact h1.2
    have h2cs : noConsecWS cs = true := noConsecWS_tail h2
    by_cases hc : isPySpace c = true
    · -- c is whitespace, hence a plain space
      have hce : c = ' ' := by
        simp only [allSpaceWS, List.all_cons, Bool.and_eq_true, Bool.or_eq_true,
          Bool.not_eq_true'] at h1
        rcases h1.1 with hne | he
        · rw [hc] at hne; cases hne
        · exact of_decide_eq_true he
      by_cases ha : acc = []
      · exfalso
        have := h4 ha
        simp only [headNotWS, Bool.not_eq_true'] at this
        rw [hc] at this
        cases this
      · have hcs : cs ≠ [] := by
          intro he
          subst he
          simp only [lastNotWS, List.getLast?_singleton, Bool.not_eq_true'] at h3
          rw [hc] at h3
          cases h3
        obtain ⟨b, rest, rfl⟩ := List.exists_cons_of_ne_nil hcs
        have hb : isPySpace b = false := by
          simp only [noConsecWS, Bool.and_eq_true, Bool.not_eq_true',
            Bool.and_eq_false_iff] at h2
          rcases h2.1 with hf | hf
          · rw [hc] at hf; cases hf
          · exact hf
        have h3cs : lastNotWS (b :: rest) = true := lastNotWS_tail hcs h3
        have IH1 := IH h1cs h2cs h3cs []
          (fun _ => by simp [headNotWS, hb])
        rw [splitAux_cons, if_pos hc, if_neg ha]
        have hne : splitAux (b :: rest) [] ≠ [] := by
          rw [splitAux_cons, if_neg (by simp [hb])]
          exact splitAux_ne_nil rest [b] (by simp)
        obtain ⟨w, ws', hws⟩ := List.exists_cons_of_ne_nil hne
        rw [hws]
        have hj : joinWords (acc.reverse :: w :: ws') =
            acc.reverse ++ ' ' :: joinWords (w :: ws') := rfl
        rw [hj, ← hws, IH1]
        simp [hce]
    · have h3cs : lastNotWS cs = true := by
        cases hcs : cs with
        | nil => rfl
        | cons b rest =>
          rw [← hcs]
          exact lastNotWS_tail (by simp [hcs]) h3
      have IH1 := IH h1cs h2cs h3cs (c :: acc) (fun h => absurd h (by simp))
      rw [splitAux_cons, if_neg hc, IH1]
      simp

/-- Collapsing is the identity on text whose whitespace consists only of
single interior spaces. -/
theorem collapseChars_id (s : List Char) (h1 : allSpaceWS s = true)
    (h2 : noConsecWS s = true) (h3 : headNotWS s = true)
    (h4 : lastNotWS s = true) : collapseChars s = s := by
  have := joinWords_splitAux s h1 h2 h4 [] (fun _ => h3)
  simpa [collapseChars] using this

/-- sanitize_text returns collapsed under-limit text unchanged. -/
theorem sanitize_text_id (t : String) (h1 : allSpaceWS t.toList = true)
    (h2 : noConsecWS t.toList = true) (h3 : headNotWS t.toList = true)
    (h4 : lastNotWS t.toList = true) (h5 : t.length ≤ 15000) :
    sanitize_text t = t := by
  by_cases ht : t = ""
  · simp [sanitize_text, ht]
  · have hc := collapseChars_id t.toList h1 h2 h3 h4
    have hmk : String.mk t.toList = t := by cases t; rfl
    unfold sanitize_text
    rw [if_neg ht]
    simp only [hc, hmk]
    rw [if_neg (by omega)]

/-- C8: the sanitization function collapses runs of whitespace to single
spaces and truncates over-limit text with a marker; but it is NOT the
identity on every string with merely no consecutive whitespace, no
leading/trailing whitespace and length at most 15000: a single interior
newline is isolated whitespace yet is rewritten to a space.  It IS the
identity once additionally every whitespace character of the string is a
plain space (amended claim, first conjunct); the truncation behaviour is
the second conjunct. -/
theorem C8_sanitize_amended :
    (∀ t : String, allSpaceWS t.toList = true → noConsecWS t.toList = true →
      headNotWS t.toList = true → lastNotWS t.toList = true →
      t.length ≤ 15000 → sanitize_text t = t) ∧
    (∀ t : String, t ≠ "" →
      15000 < (String.mk (collapseChars t.toList)).length →
      sanitize_text t =
        String.mk ((collapseChars t.toList).take 15000) ++ "... [truncated]") := by
  constructor
  · exact sanitize_text_id
  · intro t ht hlen
    unfold sanitize_text
    rw [if_neg ht]
    simp only []
    rw [if_pos (by omega)]
    rfl

/-- C8 counterexample: "a\nb" has no consecutive whitespace, no leading or
trailing whitespace, and is far under the length limit, yet sanitize_text
rewrites it (the newline becomes a space), refuting the claimed
idempotence condition. -/
theorem C8_sanitize_counterexample :
    noConsecWS "a\nb".toList = true ∧ headNotWS "a\nb".toList = true ∧
    lastNotWS "a\nb".toList = true ∧ "a\nb".length ≤ 15000 ∧
    sanitize_text "a\nb" = "a b" ∧ "a b" ≠ "a\nb" := by decide

/-- C8 witness: a concrete already-collapsed string is returned unchanged. -/
theorem C8_sanitize_witness :
    allSpaceWS "to be or not".toList = true ∧
    noConsecWS "to be or not".toList = true ∧
    headNotWS "to be or not".toList = true ∧
    lastNotWS "to be or not".toList = true ∧
    "to be or not".length ≤ 15000 ∧
    sanitize_text "to be or not" = "to be or not" := by
  refine ⟨by decide, by decide, by decide, by decide, by decide, ?_⟩
  exact C8_sanitize_amended.1 "to be or not" (by decide) (by decide) (by decide)
    (by decide) (by decide)

/-- C2 (amended): a stage accepts a generator response iff it is a dict
containing every required key of the rubric schema - extra keys are
accepted, contrary to the original claim; a missing required key (or a
non-dict response) is rejected, triggers a retry, and exhausting retries
yields a stage-scoped errorMessage. -/
theorem C2_validation_amended :
    (∀ (r : PyObj) (keys : List String),
      validate_json_output r keys = true ↔
        ∃ entries, r = PyObj.dict entries ∧ ∀ k ∈ keys, ∃ p ∈ entries, p.1 = k) ∧
    (∀ (crit : String) (keys : List String) (oracle : Nat → CallOutcome)
        (maxR : Nat) (st : GraphState),
      1 ≤ maxR → st.essay_text ≠ "" →
      (∀ j, ∃ r, oracle j = CallOutcome.ok r ∧ validate_json_output r keys = false) →
      evaluator_node crit keys oracle maxR st =
        ({ error := some ("Failed during " ++ crit ++
            " evaluation: LLM returned invalid output format") }, maxR,
         (List.range (maxR - 1)).map (fun j => 2 ^ j))) := by
  constructor
  · intro r keys
    cases r with
    | dict entries =>
      simp [validate_json_output, List.all_eq_true, List.any_eq_true, beq_iff_eq]
    | scalar v =>
      simp [validate_json_output]
  · intro crit keys oracle maxR st h1 h2 h3
    have H : ∀ j, attemptFails keys (oracle j) := by
      intro j
      obtain ⟨r, hr, hv⟩ := h3 j
      rw [hr]
      exact hv
    have he := evaluator_node_exhaust crit keys oracle maxR st h1 h2 H
    obtain ⟨r, hr, hv⟩ := h3 (maxR - 1)
    rw [hr] at he
    simp only [failMsgOf] at he
    have hs : (("Failed during " ++ crit) ++ " evaluation: ") ++
        "LLM returned invalid output format" =
        ("Failed during " ++ crit) ++ " evaluation: LLM returned invalid output format" := by
      rw [String.append_assoc]; rfl
    rw [hs] at he
    exact he

/-- C2 counterexample: a response carrying an extra key beyond the
required schema key is nevertheless accepted, so acceptance is not
equivalent to exact key-set equality. -/
theorem C2_validation_counterexample :
    validate_json_output
      (PyObj.dict [("band_score", PyVal.str "6.0"), ("comments", PyVal.str "ok")])
      ["band_score"] = true ∧
    "comments" ∈ ([("band_score", PyVal.str "6.0"),
      ("comments", PyVal.str "ok")].map Prod.fst) ∧
    "comments" ∉ (["band_score"] : List String) := by decide

/-- C2 witness: acceptance of an exact-key dict, and retry exhaustion on
persistently missing keys at a concrete input. -/
theorem C2_validation_witness :
    validate_json_output (PyObj.dict [("score", PyVal.int 6)]) ["score"] = true ∧
    evaluator_node "lexical_resource" ["score"]
        (fun _ => CallOutcome.ok (PyObj.dict [("other", PyVal.null)])) 3
        (mkInitialState "Academic Task 2" "" "essay text" 2 []) =
      ({ error := some
          "Failed during lexical_resource evaluation: LLM returned invalid output format" },
        3, [1, 2]) := by
  constructor
  · exact (C2_validation_amended.1 _ _).mpr ⟨_, rfl, by decide⟩
  · have := C2_validation_amended.2 "lexical_resource" ["score"]
      (fun _ => CallOutcome.ok (PyObj.dict [("other", PyVal.null)])) 3
      (mkInitialState "Academic Task 2" "" "essay text" 2 [])
      (by decide) (by decide)
      (fun j => ⟨PyObj.dict [("other", PyVal.null)], rfl, by decide⟩)
    exact this

/-- C4: with a collaborator that fails on every call, a stage makes
exactly maxRetries (MAX_RETRIES, default 3) generation attempts, sleeps
2^i seconds between attempts i and i+1 (1s, 2s, ... and nothing after the
last attempt), and returns a stage-scoped error update instead of
raising. -/
theorem C4_retry_backoff (crit : String) (keys : List String)
    (oracle : Nat → CallOutcome) (maxR : Nat) (st : GraphState)
    (h1 : 1 ≤ maxR) (h2 : st.essay_text ≠ "")
    (h3 : ∀ j, ∃ m, oracle j = CallOutcome.raise m) :
    MAX_RETRIES = 3 ∧
    ∃ m, oracle (maxR - 1) = CallOutcome.raise m ∧
      evaluator_node crit keys oracle maxR st =
        ({ error := some ("Failed during " ++ crit ++ " evaluation: " ++ m) },
          maxR, (List.range (maxR - 1)).map (fun i => 2 ^ i)) := by
  refine ⟨rfl, ?_⟩
  obtain ⟨m, hm⟩ := h3 (maxR - 1)
  refine ⟨m, hm, ?_⟩
  have H : ∀ j, attemptFails keys (oracle j) := by
    intro j
    obtain ⟨m', hm'⟩ := h3 j
    rw [hm']
    exact trivial
  have he := evaluator_node_exhaust crit keys oracle maxR st h1 h2 H
  rw [hm] at he
  exact he

/-- C4 witness: three attempts, sleeps of 1s then 2s, stage-scoped error. -/
theorem C4_retry_backoff_witness :
    (mkInitialState "Academic Task 2" "" "essay text" 2 []).essay_text ≠ "" ∧
    evaluator_node "grammatical_range" ["score"] (fun _ => CallOutcome.raise "boom") 3
        (mkInitialState "Academic Task 2" "" "essay text" 2 []) =
      ({ error := some "Failed during grammatical_range evaluation: boom" }, 3, [1, 2]) := by
  refine ⟨by decide, ?_⟩
  obtain ⟨-, m, hm, he⟩ := C4_retry_backoff "grammatical_range" ["score"]
    (fun _ => CallOutcome.raise "boom") 3
    (mkInitialState "Academic Task 2" "" "essay text" 2 [])
    (by decide) (by decide) (fun j => ⟨"boom", rfl⟩)
  injection hm with hmb
  subst hmb
  exact he

/-- C5: a stage invoked on an empty document fails immediately with a
validation error folded into errorMessage: zero collaborator calls, no
retry loop iteration, no sleep, and no exception past the stage
boundary. -/
theorem C5_empty_document (crit : String) (keys : List String)
    (oracle : Nat → CallOutcome) (maxR : Nat) (st : GraphState)
    (h : st.essay_text = "") :
    evaluator_node crit keys oracle maxR st =
      ({ error := some ("Failed during " ++ crit ++
          " evaluation: No essay text provided") }, 0, []) := by
  simp [evaluator_node, h]

/-- C5 witness: concrete empty-document stage invocation. -/
theorem C5_empty_document_witness :
    (mkInitialState "Academic Task 1" "prompt" "" 0 []).essay_text = "" ∧
    evaluator_node "task_achievement" ["score"]
        (fun _ => CallOutcome.ok (PyObj.dict [("score", PyVal.int 6)])) 3
        (mkInitialState "Academic Task 1" "prompt" "" 0 []) =
      ({ error := some "Failed during task_achievement evaluation: No essay text provided" },
        0, []) := by
  refine ⟨rfl, ?_⟩
  exact C5_empty_document "task_achievement" ["score"]
    (fun _ => CallOutcome.ok (PyObj.dict [("score", PyVal.int 6)])) 3
    (mkInitialState "Academic Task 1" "prompt" "" 0 []) rfl

/-- C6: entering the synthesizer with no prior error and an empty
evaluations mapping makes zero generation calls and returns the static
fallback report together with a synthesis-failure errorMessage; the
returned update is total (no exception escapes the node boundary). -/
theorem C6_synth_empty_evaluations (sOracle : Nat → SynthOutcome) (maxR : Nat)
    (st : GraphState) (h1 : pyTruthy st.error = false)
    (h2 : st.evaluations = []) :
    synthesizer_node sOracle maxR st =
      ({ final_report := some fallback_report,
         error := some "Synthesis error: No evaluation results found" }, 0, []) := by
  simp [synthesizer_node, h1, h2]

/-- C6 witness: concrete error-free empty-evaluations synthesis. -/
theorem C6_synth_empty_evaluations_witness :
    pyTruthy (mkInitialState "Academic Task 2" "" "essay text" 2 []).error = false ∧
    (mkInitialState "Academic Task 2" "" "essay text" 2 []).evaluations = [] ∧
    synthesizer_node (fun _ => SynthOutcome.ok "report") 3
        (mkInitialState "Academic Task 2" "" "essay text" 2 []) =
      ({ final_report := some fallback_report,
         error := some "Synthesis error: No evaluation results found" }, 0, []) := by
  refine ⟨rfl, rfl, ?_⟩
  exact C6_synth_empty_evaluations (fun _ => SynthOutcome.ok "report") 3
    (mkInitialState "Academic Task 2" "" "essay text" 2 []) rfl rfl

/-- C7: a non-empty errorMessage on entry short-circuits the synthesizer:
zero generation calls, finalReport set to the fixed generic-error report,
errorMessage passed through unchanged, and no other field touched by the
update (evaluations stays none). -/
theorem C7_synth_error_short_circuit (sOracle : Nat → SynthOutcome)
    (maxR : Nat) (st : GraphState) (h : pyTruthy st.error = true) :
    synthesizer_node sOracle maxR st =
      ({ evaluations := none, final_report := some generic_error_report,
         error := st.error }, 0, []) := by
  simp [synthesizer_node, h]

/-- C7 witness: a concrete entry error is preserved verbatim. -/
theorem C7_synth_error_short_circuit_witness :
    pyTruthy ({ mkInitialState "Academic Task 2" "" "essay text" 2 [] with
      error := some "Failed during lexical_resource evaluation: boom" }).error = true ∧
    synthesizer_node (fun _ => SynthOutcome.ok "report") 3
        ({ mkInitialState "Academic Task 2" "" "essay text" 2 [] with
          error := some "Failed during lexical_resource evaluation: boom" }) =
      ({ evaluations := none, final_report := some generic_error_report,
         error := some "Failed during lexical_resource evaluation: boom" }, 0, []) := by
  refine ⟨rfl, ?_⟩
  exact C7_synth_error_short_circuit (fun _ => SynthOutcome.ok "report") 3
    ({ mkInitialState "Academic Task 2" "" "essay text" 2 [] with
      error := some "Failed during lexical_resource evaluation: boom" }) rfl

/-- C9: the half-band rounding rule the spec states (modelled from the
spec, since the computation is delegated to the generation collaborator)
validates the five example averages; and the engine indeed delegates:
on a successful generation the synthesizer's finalReport is the
collaborator's output verbatim, with no score arithmetic performed and
errorMessage left unset. -/
theorem C9_rounding_delegated :
    (roundHalfUp (61/10) = 6 ∧ roundHalfUp (625/100) = 65/10 ∧
     roundHalfUp (674/100) = 65/10 ∧ roundHalfUp (675/100) = 7 ∧
     roundHalfUp (68/10) = 7) ∧
    (∀ (sOracle : Nat → SynthOutcome) (maxR : Nat) (st : GraphState) (c : String),
      pyTruthy st.error = false → st.evaluations ≠ [] → 1 ≤ maxR →
      sOracle 0 = SynthOutcome.ok c →
      synthesizer_node sOracle maxR st = ({ final_report := some c }, 1, [])) := by
  constructor
  · refine ⟨?_, ?_, ?_, ?_, ?_⟩
    · rw [roundHalfUp, show ⌊(61/10 : ℚ)⌋ = 6 by norm_num]
      norm_num
    · rw [roundHalfUp, show ⌊(625/100 : ℚ)⌋ = 6 by norm_num]
      norm_num
    · rw [roundHalfUp, show ⌊(674/100 : ℚ)⌋ = 6 by norm_num]
      norm_num
    · rw [roundHalfUp, show ⌊(675/100 : ℚ)⌋ = 6 by norm_num]
      norm_num
    · rw [roundHalfUp, show ⌊(68/10 : ℚ)⌋ = 6 by norm_num]
      norm_num
  · intro sOracle maxR st c h1 h2 h3 h4
    obtain ⟨d, rfl⟩ : ∃ d, maxR = d + 1 := ⟨maxR - 1, by omega⟩
    have hloop : synthLoop sOracle (d + 1) (d + 1) 0 = (SynthExit.success c, 1, []) := by
      rw [synthLoop_succ, h4]
    simp [synthesizer_node, h1, h2, hloop]

/-- C9 witness: a concrete successful synthesis passes the collaborator
text through verbatim. -/
theorem C9_rounding_delegated_witness :
    pyTruthy ({ mkInitialState "Academic Task 2" "" "essay text" 2 [] with
      evaluations := [("task_response", PyObj.dict [("band_score", PyVal.str "6.0")])] }).error
      = false ∧
    synthesizer_node (fun _ => SynthOutcome.ok "Your Overall Band Score: 6.0") 3
        ({ mkInitialState "Academic Task 2" "" "essay text" 2 [] with
          evaluations := [("task_response", PyObj.dict [("band_score", PyVal.str "6.0")])] }) =
      ({ final_report := some "Your Overall Band Score: 6.0" }, 1, []) := by
  refine ⟨rfl, ?_⟩
  exact C9_rounding_delegated.2 (fun _ => SynthOutcome.ok "Your Overall Band Score: 6.0") 3
    ({ mkInitialState "Academic Task 2" "" "essay text" 2 [] with
      evaluations := [("task_response", PyObj.dict [("band_score", PyVal.str "6.0")])] })
    "Your Overall Band Score: 6.0" rfl (by decide) (by decide) rfl

/-- C10: a category containing both "task 1" and "task 2"
(case-insensitively) is routed to the task-achievement (Task 1) entry
stage: the "task 1" test is applied first and takes priority. -/
theorem C10_router_task1_priority (st : GraphState)
    (h1 : strContains (pyLower st.task_type) "task 1" = true)
    (h2 : strContains (pyLower st.task_type) "task 2" = true) :
    should_evaluate_task_1_or_2 st = "evaluate_task_achievement_t1" := by
  simp [should_evaluate_task_1_or_2, h1]

/-- C10 witness: a concrete category containing both substrings routes to
the Task 1 stage. -/
theorem C10_router_task1_priority_witness :
    strContains (pyLower "Academic Task 1 and Task 2") "task 1" = true ∧
    strContains (pyLower "Academic Task 1 and Task 2") "task 2" = true ∧
    should_evaluate_task_1_or_2
      (mkInitialState "Academic Task 1 and Task 2" "" "essay text" 2 []) =
      "evaluate_task_achievement_t1" := by
  refine ⟨by decide, by decide, ?_⟩
  exact C10_router_task1_priority
    (mkInitialState "Academic Task 1 and Task 2" "" "essay text" 2 [])
    (by decide) (by decide)

theorem run_synth_final_report_ne (sOracle : Nat → SynthOutcome) (maxR : Nat)
    (st : GraphState) (h1 : 1 ≤ maxR)
    (h2 : ∀ i c, sOracle i = SynthOutcome.ok c → c ≠ "") :
    (applyUpdate st (synthesizer_node sOracle maxR st).1).final_report ≠ "" := by
  obtain ⟨r, hu, hr0⟩ := synthesizer_report_nonempty sOracle maxR st h1 h2
  simp only [applyUpdate, hu]
  exact hr0

/-- C1 (amended): every completed invocation of run (with a positive retry
budget and non-empty successful synthesis outputs) ends with a non-empty
finalReport - so at least one of finalReport/errorMessage is non-empty and
they are never both empty; but the error paths set BOTH fields, so
"exactly one non-empty" does not hold (see the counterexample). -/
theorem C1_completion_amended (keysOf : String → List String)
    (oracle : String → Nat → CallOutcome) (sOracle : Nat → SynthOutcome)
    (maxR : Nat) (cat pc doc : String) (wc : Nat) (hist : List PriorAttempt)
    (h1 : 1 ≤ maxR) (h2 : ∀ i c, sOracle i = SynthOutcome.ok c → c ≠ "") :
    (run keysOf oracle sOracle maxR cat pc doc wc hist).final_report ≠ "" := by
  by_cases hr : should_evaluate_task_1_or_2 (mkInitialState cat pc doc wc hist) =
    "handle_error"
  · simp only [run]
    rw [if_pos hr]
    simp [applyUpdate, handle_error_node, mkInitialState]
  · simp only [run]
    rw [if_neg hr]
    exact run_synth_final_report_ne sOracle maxR _ h1 h2

/-- C1 counterexample: on an unroutable category the completed state has
BOTH a non-empty finalReport and a non-empty errorMessage, refuting
"exactly one of them is non-empty (never both set)". -/
theorem C1_completion_counterexample :
    (run (fun _ => []) (fun _ _ => CallOutcome.raise "x")
      (fun _ => SynthOutcome.raise "x") 3
      "Speaking interview" "" "essay text" 2 []).final_report ≠ "" ∧
    pyTruthy (run (fun _ => []) (fun _ _ => CallOutcome.raise "x")
      (fun _ => SynthOutcome.raise "x") 3
      "Speaking interview" "" "essay text" 2 []).error = true := by decide

/-- C1 witness: a run with an always-succeeding synthesizer has a
non-empty finalReport. -/
theorem C1_completion_witness :
    (run (fun _ => ["score"])
      (fun _ _ => CallOutcome.ok (PyObj.dict [("score", PyVal.int 6)]))
      (fun _ => SynthOutcome.ok "Well done") 3
      "Academic Task 2" "" "essay text" 2 []).final_report ≠ "" := by
  refine C1_completion_amended (fun _ => ["score"])
    (fun _ _ => CallOutcome.ok (PyObj.dict [("score", PyVal.int 6)]))
    (fun _ => SynthOutcome.ok "Well done") 3
    "Academic Task 2" "" "essay text" 2 [] (by decide) ?_
  intro i c h
  injection h with h
  subst h
  decide

/-- C3 (amended): a category containing neither "task 1" nor "task 2"
(case-insensitively) is routed to the error terminal without raising, and
the invocation completes with errorMessage set to the fixed GENERIC
unknown-error diagnostic (not an "invalid category" diagnostic - the
router cannot write state, so handle_error_node's default message is
used) and finalReport equal to the formatted wrapper embedding it. -/
theorem C3_invalid_category_amended (keysOf : String → List String)
    (oracle : String → Nat → CallOutcome) (sOracle : Nat → SynthOutcome)
    (maxR : Nat) (cat pc doc : String) (wc : Nat) (hist : List PriorAttempt)
    (h1 : strContains (pyLower cat) "task 1" = false)
    (h2 : strContains (pyLower cat) "task 2" = false) :
    should_evaluate_task_1_or_2 (mkInitialState cat pc doc wc hist) = "handle_error" ∧
    (run keysOf oracle sOracle maxR cat pc doc wc hist).error =
      some "An unknown error occurred during evaluation." ∧
    (run keysOf oracle sOracle maxR cat pc doc wc hist).final_report =
      "**Evaluation Error**\n\nAn unknown error occurred during evaluation.\n\nPlease check your inputs and try again." := by
  have hroute : should_evaluate_task_1_or_2 (mkInitialState cat pc doc wc hist) =
      "handle_error" := by
    simp [should_evaluate_task_1_or_2, mkInitialState, h1, h2]
  refine ⟨hroute, ?_, ?_⟩
  · simp only [run]
    rw [if_pos hroute]
    simp [applyUpdate, handle_error_node, mkInitialState]
  · simp only [run]
    rw [if_pos hroute]
    simp [applyUpdate, handle_error_node, mkInitialState]

/-- C3 counterexample: the diagnostic actually stored mentions neither
"invalid" nor "category", so it is not the claimed fixed "invalid
category" diagnostic. -/
theorem C3_invalid_category_counterexample :
    (run (fun _ => []) (fun _ _ => CallOutcome.raise "x")
      (fun _ => SynthOutcome.raise "x") 3
      "Academic Speaking" "" "essay text" 2 []).error =
      some "An unknown error occurred during evaluation." ∧
    strContains (pyLower "An unknown error occurred during evaluation.") "invalid" = false ∧
    strContains (pyLower "An unknown error occurred during evaluation.") "category" = false := by
  decide

/-- C3 witness: a concrete unroutable category reaches the error terminal
with the generic diagnostic. -/
theorem C3_invalid_category_witness :
    strContains (pyLower "Listening Section") "task 1" = false ∧
    strContains (pyLower "Listening Section") "task 2" = false ∧
    (run (fun _ => []) (fun _ _ => CallOutcome.raise "y")
      (fun _ => SynthOutcome.raise "y") 3
      "Listening Section" "" "essay text" 2 []).error =
      some "An unknown error occurred during evaluation." := by
  refine ⟨by decide, by decide, ?_⟩
  exact (C3_invalid_category_amended (fun _ => []) (fun _ _ => CallOutcome.raise "y")
    (fun _ => SynthOutcome.raise "y") 3 "Listening Section" "" "essay text" 2 []
    (by decide) (by decide)).2.1
